import Mathlib

/-!
Shallow embedding of the azureml-examples repository sources:

* `src/python-sdk/tutorials/an-introduction/3.pytorch-model-cloud-data.ipynb`
  (the "bring your own data" notebook, notebook A below), and
* `src/.github/workflows/cli-scripts-create-compute.yml`, which holds the CI
  workflow YAML followed by an embedded PyTorch-Lightning TensorBoard
  notebook (notebook B below).

The notebooks are straight-line scripts of SDK calls and a few local file
operations; the workflow is a trigger specification plus a linear list of
steps. Each is embedded as explicit Lean data, and the claimed properties
are proved (or refuted) over these embeddings.
-/

namespace AzureMLExamples

/-- The Azure ML SDK operations invoked by the notebooks' code cells. -/
inductive SDKOp
  | workspaceFromConfig
  | getDefaultDatastore
  | datastoreUpload
  | datasetFromFiles
  | envFromCondaSpec
  | scriptRunConfig
  | experimentSubmit
  | runDetailsShow
  | waitForCompletion
  | tensorboardCreate
  | tensorboardStart
  | tensorboardStop
deriving DecidableEq

/-- Local path of the CIFAR10 archive downloaded by
`datasets.CIFAR10(".", download=True)` and later removed by `os.remove`. -/
def cifarArchivePath : String := "cifar-10-python.tar.gz"

/-- Local path of the extracted CIFAR10 directory created by the download and
later removed by `shutil.rmtree`. -/
def cifarDirPath : String := "cifar-10-batches-py"

/-- Local (non-SDK) operations appearing in notebook A's code cells. -/
inductive LocalOp
  | pipInstall (pkg : String)
  | cifarDownload
  | removeFile (path : String)
  | removeDirTree (path : String)
deriving DecidableEq

/-- Statement kinds of the notebooks' code cells. The constructors
`branch`, `tryExcept`, `spawnThread`, `processPool` and `asyncTask` exist so
that their absence from the embedded notebooks is a statement about the
source, not an artifact of the statement type. -/
inductive Stmt
  | sdkCall (op : SDKOp)
  | localOp (op : LocalOp)
  | assign
  | branch
  | tryExcept
  | spawnThread
  | processPool
  | asyncTask
deriving DecidableEq

/-- Statements of notebook A
(`3.pytorch-model-cloud-data.ipynb`), code cells in order:
`!pip install --upgrade torchvision`; then `ws = Workspace.from_config()`,
`datasets.CIFAR10(".", download=True)`, `ds = ws.get_default_datastore()`,
`ds.upload(...)`; then `os.remove(...)`, `shutil.rmtree(...)`; then
`ds = Dataset.File.from_files((ws.get_default_datastore(), "tutorials/datasets/"))`,
`env = Environment.from_conda_specification(...)`, `src = ScriptRunConfig(...)`,
`run = Experiment(...).submit(src)`, `RunDetails(run).show()`; finally
`run.wait_for_completion(show_output=True)`. -/
def notebookAStmts : List Stmt :=
  [ .localOp (.pipInstall "torchvision"),
    .sdkCall .workspaceFromConfig,
    .localOp .cifarDownload,
    .sdkCall .getDefaultDatastore,
    .sdkCall .datastoreUpload,
    .localOp (.removeFile cifarArchivePath),
    .localOp (.removeDirTree cifarDirPath),
    .sdkCall .getDefaultDatastore,
    .sdkCall .datasetFromFiles,
    .sdkCall .envFromCondaSpec,
    .sdkCall .scriptRunConfig,
    .sdkCall .experimentSubmit,
    .sdkCall .runDetailsShow,
    .sdkCall .waitForCompletion ]

/-- Statements of notebook B (the TensorBoard notebook embedded in the
workflow file), code cells in order: `ws = Workspace.from_config()`; the
settings cell (plain assignments); `env = Environment.from_conda_specification(...)`
followed by the `env.docker` attribute assignments; `src = ScriptRunConfig(...)`
and `run = Experiment(ws, experiment_name).submit(src)`; `tb = Tensorboard([run])`
and `tb.start()`; `tb.stop()`; finally `run.wait_for_completion(show_output=True)`. -/
def notebookBStmts : List Stmt :=
  [ .sdkCall .workspaceFromConfig,
    .assign,
    .sdkCall .envFromCondaSpec,
    .assign,
    .sdkCall .scriptRunConfig,
    .sdkCall .experimentSubmit,
    .sdkCall .tensorboardCreate,
    .sdkCall .tensorboardStart,
    .sdkCall .tensorboardStop,
    .sdkCall .waitForCompletion ]

/-- The SDK operation of a statement, if it is an SDK call. -/
def Stmt.sdkOp : Stmt → Option SDKOp
  | .sdkCall op => some op
  | _ => none

/-- The local operation of a statement, if it is a local one. -/
def Stmt.localOf : Stmt → Option LocalOp
  | .localOp op => some op
  | _ => none

/-- Notebook A's SDK calls, in invocation order. -/
def sdkOpsA : List SDKOp := notebookAStmts.filterMap Stmt.sdkOp

/-- Notebook B's SDK calls, in invocation order. -/
def sdkOpsB : List SDKOp := notebookBStmts.filterMap Stmt.sdkOp

/-- Notebook A's local (non-SDK) operations, in order. -/
def localOpsA : List LocalOp := notebookAStmts.filterMap Stmt.localOf

/-- Notebook B's local (non-SDK) operations, in order. -/
def localOpsB : List LocalOp := notebookBStmts.filterMap Stmt.localOf

/-! ## The spec's claimed pipeline order (claim C1)

The spec describes each notebook as: build a workspace handle, then
define/create an environment, then upload or reference a dataset, then
construct a run configuration, then submit and poll, then optionally launch
the log-visualization client. `phaseOf` numbers these stages. -/

/-- Stage number of an SDK operation in the spec's claimed pipeline:
0 workspace, 1 environment, 2 dataset, 3 run configuration,
4 submit-and-poll, 5 visualization launch. `RunDetails(run).show()` and
`tb.stop()` belong to none of the named stages. -/
def phaseOf : SDKOp → Option Nat
  | .workspaceFromConfig => some 0
  | .envFromCondaSpec => some 1
  | .getDefaultDatastore => some 2
  | .datastoreUpload => some 2
  | .datasetFromFiles => some 2
  | .scriptRunConfig => some 3
  | .experimentSubmit => some 4
  | .waitForCompletion => some 4
  | .tensorboardCreate => some 5
  | .tensorboardStart => some 5
  | .runDetailsShow => none
  | .tensorboardStop => none

/-- Whether a list of naturals is sorted in non-decreasing order. -/
def isNondecreasing : List Nat → Bool
  | [] => true
  | [_] => true
  | a :: b :: rest => Nat.ble a b && isNondecreasing (b :: rest)

/-- The claim-C1 order check: the stage numbers of the notebook's SDK calls
appear in non-decreasing order, and every mandatory stage (workspace,
environment, dataset, run configuration, submit-and-poll) is present. -/
def claimC1check (ops : List SDKOp) : Bool :=
  isNondecreasing (ops.filterMap phaseOf) &&
    [0, 1, 2, 3, 4].all (fun n => (ops.filterMap phaseOf).contains n)

/-- `allBefore p q ops` holds when every `p`-operation occurs strictly before
every `q`-operation of `ops`. -/
def allBefore (p q : SDKOp → Bool) : List SDKOp → Bool
  | [] => true
  | o :: rest => (!(q o) || rest.all (fun x => !(p x))) && allBefore p q rest

/-- Dataset-stage operations (upload or reference a dataset). -/
def isDatasetOp : SDKOp → Bool
  | .getDefaultDatastore => true
  | .datastoreUpload => true
  | .datasetFromFiles => true
  | _ => false

/-- Visualization-client launch operations. -/
def isVizLaunchOp : SDKOp → Bool
  | .tensorboardCreate => true
  | .tensorboardStart => true
  | _ => false

/-- The amended order check: workspace handle first; environment and any
dataset operations before the run configuration; run configuration before
submit; submit before the final poll; and the visualization launch, when
present, after the submit (but not necessarily after the poll). -/
def amendedC1check (ops : List SDKOp) : Bool :=
  (ops.head? == some SDKOp.workspaceFromConfig) &&
  allBefore (· == SDKOp.envFromCondaSpec) (· == SDKOp.scriptRunConfig) ops &&
  allBefore isDatasetOp (· == SDKOp.scriptRunConfig) ops &&
  allBefore (· == SDKOp.scriptRunConfig) (· == SDKOp.experimentSubmit) ops &&
  allBefore (· == SDKOp.experimentSubmit) (· == SDKOp.waitForCompletion) ops &&
  allBefore (· == SDKOp.experimentSubmit) isVizLaunchOp ops

/-! ## The CI workflow (`cli-scripts-create-compute.yml`)

Steps of the single `build` job, and the `on:` trigger block. -/

/-- A step of the GitHub Actions job: its `name:`, its `uses:` action (if
any), its `run:` command (if any), its `working-directory:` (if any), and
whether it carries `continue-on-error: true`. -/
structure Step where
  name : String
  usesAction : Option String
  run : Option String
  workingDirectory : Option String
  continueOnError : Bool
deriving DecidableEq

/-- The six steps of the `build` job, in YAML order. -/
def wfSteps : List Step :=
  [ { name := "check out repo", usesAction := some "actions/checkout@v2",
      run := none, workingDirectory := none, continueOnError := false },
    { name := "azure login", usesAction := some "azure/login@v1",
      run := none, workingDirectory := none, continueOnError := false },
    { name := "install ml cli", usesAction := none,
      run := some "az extension add -n ml -y",
      workingDirectory := none, continueOnError := false },
    { name := "setup", usesAction := none,
      run := some "bash setup.sh",
      workingDirectory := some "cli", continueOnError := true },
    { name := "scripts installs", usesAction := none,
      run := some "sudo apt-get upgrade -y && sudo apt-get install uuid-runtime jq -y",
      workingDirectory := none, continueOnError := false },
    { name := "test script script", usesAction := none,
      run := some "set -e; bash -x create-compute.sh",
      workingDirectory := some "cli", continueOnError := false } ]

/-- GitHub Actions job semantics over per-step outcomes (`true` = the step
succeeds): steps run in order; a failing step whose `continue-on-error` is
not set fails the job and skips the rest; otherwise execution continues.
Returns `true` when the job succeeds. -/
def runJob : List Step → List Bool → Bool
  | [], _ => true
  | _ :: _, [] => true
  | st :: rest, ok :: oks =>
    if ok || st.continueOnError then runJob rest oks else false

/-- A field of the workflow's five-field cron expression. -/
inductive CronField
  | exact (n : Nat)
  | everyStep (base stride : Nat)
  | any
deriving DecidableEq

/-- Standard cron field matching: `exact n` matches only `n`; `everyStep b s`
(written `b/s` in cron) matches the values `b, b+s, b+2s, ...`; `any`
(written `*`) matches everything. -/
def CronField.matches : CronField → Nat → Bool
  | .exact n, v => v == n
  | .everyStep b s, v => decide (b ≤ v) && (v - b) % s == 0
  | .any, _ => true

/-- The workflow's five cron fields: minute, hour, day of month, month,
day of week. -/
structure CronExpr where
  minute : CronField
  hour : CronField
  dom : CronField
  month : CronField
  dow : CronField

/-- The workflow's schedule, `cron: "0 0/4 * * *"`. -/
def scheduleCron : CronExpr :=
  { minute := .exact 0, hour := .everyStep 0 4,
    dom := .any, month := .any, dow := .any }

/-- Whether a cron expression fires at the given time coordinates. -/
def CronExpr.fires (c : CronExpr) (minute hour dom month dow : Nat) : Bool :=
  c.minute.matches minute && c.hour.matches hour && c.dom.matches dom &&
    c.month.matches month && c.dow.matches dow

/-- The workflow's pull-request filters: target branches and touched paths. -/
structure PullRequestFilter where
  branches : List String
  paths : List String

/-- The workflow's `on.pull_request` block: branches `main` and
`cli-preview`, paths `cli/create-compute.sh` and the workflow file itself. -/
def prFilter : PullRequestFilter :=
  { branches := ["main", "cli-preview"],
    paths := ["cli/create-compute.sh",
              ".github/workflows/cli-scripts-create-compute.yml"] }

/-- Events that can reach the workflow: a scheduled tick (with its time
coordinates) or a pull request (with its target branch and changed files). -/
inductive Event
  | scheduled (minute hour dom month dow : Nat)
  | pullRequest (baseBranch : String) (changedFiles : List String)

/-- Whether the workflow's `on:` block triggers the job on an event. -/
def triggered : Event → Bool
  | .scheduled m h d mo dw => scheduleCron.fires m h d mo dw
  | .pullRequest b files =>
    prFilter.branches.any (· == b) &&
      files.any (fun f => prFilter.paths.any (· == f))

/-! ## Straight-line execution semantics of the notebook cells

Each statement is paired with an optional exception it raises when executed.
Execution is sequential; an uncaught exception aborts the run. A
`tryExcept` statement would swallow its exception; the embedded notebooks
contain none. -/

/-- Whether a statement is a `try/except` block (which would catch an
exception raised inside it). -/
def Stmt.catches : Stmt → Bool
  | .tryExcept => true
  | _ => false

/-- Whether a statement is branching control flow. -/
def Stmt.isBranch : Stmt → Bool
  | .branch => true
  | _ => false

/-- Whether a statement spawns a thread, process pool, or async task. -/
def Stmt.isSpawn : Stmt → Bool
  | .spawnThread => true
  | .processPool => true
  | .asyncTask => true
  | _ => false

/-- A statement list is straight-line when it has no branching and no
exception handler. -/
def straightLine (l : List Stmt) : Bool :=
  l.all (fun s => !s.isBranch && !s.catches)

/-- Sequential execution of statements, where each statement is paired with
the exception (if any) its execution raises. Returns the statements that
actually executed, and either `ok` or the first uncaught exception,
unmodified. -/
def runSeq : List (Stmt × Option String) → List Stmt × Except String Unit
  | [] => ([], Except.ok ())
  | (s, some e) :: rest =>
    if s.catches then
      let r := runSeq rest
      (s :: r.1, r.2)
    else ([s], Except.error e)
  | (s, none) :: rest =>
    let r := runSeq rest
    (s :: r.1, r.2)

/-- Executing an all-succeeding segment first executes it entirely, in
order, then continues with the rest. -/
theorem runSeq_append_ok (pre l : List (Stmt × Option String))
    (h : ∀ t ∈ pre, t.2 = none) :
    runSeq (pre ++ l) = (pre.map Prod.fst ++ (runSeq l).1, (runSeq l).2) := by
  induction pre with
  | nil => simp
  | cons t pre ih =>
    obtain ⟨s, o⟩ := t
    have ho : o = none := h (s, o) (List.mem_cons_self _ _)
    subst ho
    simp only [List.cons_append, runSeq, List.map_cons, List.append_eq]
    rw [ih (fun t ht => h t (List.mem_cons_of_mem _ ht))]

/-- A raising statement with no handler aborts the run at once with the
exception unmodified. -/
theorem runSeq_raise (s : Stmt) (e : String)
    (post : List (Stmt × Option String)) (h : s.catches = false) :
    runSeq ((s, some e) :: post) = ([s], Except.error e) := by
  simp [runSeq, h]

/-! ## Remote handles and def-use order (claim C7) -/

/-- The remote handles the notebooks pass between SDK calls: the workspace
`ws`, the datastore/dataset `ds`, the environment `env`, the run
configuration `src`, the run `run`, and the TensorBoard client `tb`. -/
inductive Handle
  | ws
  | ds
  | env
  | src
  | run
  | tb
deriving DecidableEq

/-- One SDK call with the handles it consumes as inputs and the handles it
produces (binds). -/
structure Call where
  op : SDKOp
  consumes : List Handle
  produces : List Handle
deriving DecidableEq

/-- Notebook A's SDK calls with their handle flow:
`ws = Workspace.from_config()`; `ds = ws.get_default_datastore()`;
`ds.upload(...)`; `ds = Dataset.File.from_files((ws.get_default_datastore(), ...))`
(rebinding `ds`); `env = Environment.from_conda_specification(...)`;
`src = ScriptRunConfig(..., environment=env, arguments=[..., ds.as_mount(), ...])`;
`run = Experiment(workspace=ws, ...).submit(src)`; `RunDetails(run).show()`;
`run.wait_for_completion(...)`. -/
def notebookACalls : List Call :=
  [ { op := .workspaceFromConfig, consumes := [], produces := [.ws] },
    { op := .getDefaultDatastore, consumes := [.ws], produces := [.ds] },
    { op := .datastoreUpload, consumes := [.ds], produces := [] },
    { op := .getDefaultDatastore, consumes := [.ws], produces := [.ds] },
    { op := .datasetFromFiles, consumes := [.ds], produces := [.ds] },
    { op := .envFromCondaSpec, consumes := [], produces := [.env] },
    { op := .scriptRunConfig, consumes := [.env, .ds], produces := [.src] },
    { op := .experimentSubmit, consumes := [.ws, .src], produces := [.run] },
    { op := .runDetailsShow, consumes := [.run], produces := [] },
    { op := .waitForCompletion, consumes := [.run], produces := [] } ]

/-- Notebook B's SDK calls with their handle flow:
`ws = Workspace.from_config()`; `env = Environment.from_conda_specification(...)`;
`src = ScriptRunConfig(..., environment=env)`;
`run = Experiment(ws, experiment_name).submit(src)`; `tb = Tensorboard([run])`;
`tb.start()`; `tb.stop()`; `run.wait_for_completion(...)`. -/
def notebookBCalls : List Call :=
  [ { op := .workspaceFromConfig, consumes := [], produces := [.ws] },
    { op := .envFromCondaSpec, consumes := [], produces := [.env] },
    { op := .scriptRunConfig, consumes := [.env], produces := [.src] },
    { op := .experimentSubmit, consumes := [.ws, .src], produces := [.run] },
    { op := .tensorboardCreate, consumes := [.run], produces := [.tb] },
    { op := .tensorboardStart, consumes := [.tb], produces := [] },
    { op := .tensorboardStop, consumes := [.tb], produces := [] },
    { op := .waitForCompletion, consumes := [.run], produces := [] } ]

/-- Auxiliary scope check: given the handles produced so far, every call's
consumed handles must already be produced, and its products extend the
scope. -/
def wellScopedFrom (produced : List Handle) : List Call → Bool
  | [] => true
  | c :: rest =>
    c.consumes.all (fun h => produced.contains h) &&
      wellScopedFrom (produced ++ c.produces) rest

/-- Every handle a call consumes was produced by an earlier call of the
same notebook. -/
def wellScoped (cs : List Call) : Bool := wellScopedFrom [] cs

/-! ## Local filesystem effects (claim C5) -/

/-- Effect of a local operation on the local filesystem, modelled as a
presence predicate on paths: the CIFAR10 download creates the archive and
the extracted directory; `os.remove` / `shutil.rmtree` delete their path;
`pip install` touches no data path. -/
def LocalOp.applyFs : LocalOp → (String → Bool) → (String → Bool)
  | .pipInstall _, fs => fs
  | .cifarDownload, fs => fun p =>
    if p = cifarArchivePath then true
    else if p = cifarDirPath then true
    else fs p
  | .removeFile q, fs => fun p => if p = q then false else fs p
  | .removeDirTree q, fs => fun p => if p = q then false else fs p

/-- Apply a sequence of local operations to a filesystem, in order. -/
def applyAllFs (ops : List LocalOp) (fs : String → Bool) : String → Bool :=
  ops.foldl (fun acc op => op.applyFs acc) fs

/-- The local paths an operation creates. -/
def LocalOp.creates : LocalOp → List String
  | .cifarDownload => [cifarArchivePath, cifarDirPath]
  | _ => []

/-- The local paths an operation deletes. -/
def LocalOp.deletes : LocalOp → List String
  | .removeFile q => [q]
  | .removeDirTree q => [q]
  | _ => []

/-! ## The datastore upload (claims C9, C10) -/

/-- The `ds.upload` call of notebook A:
`ds.upload(src_dir="cifar-10-batches-py",
target_path="tutorials/datasets/cifar-10-batches-py", overwrite=True)`. -/
structure UploadCall where
  srcDir : String
  targetPath : String
  overwrite : Bool

/-- The concrete upload call of notebook A's data-upload cell. -/
def uploadCall : UploadCall :=
  { srcDir := "cifar-10-batches-py",
    targetPath := "tutorials/datasets/cifar-10-batches-py",
    overwrite := true }

/-- The datastore path referenced by
`Dataset.File.from_files((ws.get_default_datastore(), "tutorials/datasets/"))`
and mounted into the run via `ds.as_mount()` as the `--data-path` argument. -/
def datasetReferencePath : String := "tutorials/datasets/"

/-- The content the upload writes at a datastore path: the file of `files`
(relative name paired with content) whose name, placed under the call's
`target_path`, equals that datastore path. -/
def uploadedContent (u : UploadCall) (files : List (String × String))
    (p : String) : Option String :=
  (files.find? (fun f => u.targetPath ++ "/" ++ f.1 == p)).map Prod.snd

/-- Effect of `ds.upload` on the datastore, modelled as a partial map from
datastore paths to contents: each uploaded file is written at its place
under `target_path`; with `overwrite=True` an existing blob is replaced,
otherwise the existing blob is kept; paths not uploaded are untouched. -/
def applyUpload (u : UploadCall) (files : List (String × String))
    (store : String → Option String) : String → Option String :=
  fun p =>
    match uploadedContent u files p with
    | some c => if u.overwrite then some c else some ((store p).getD c)
    | none => store p

/-! ## Shell commands run by the workflow steps (claim C8) -/

/-- A shell command of a workflow `run:` step, with whether it is sent to
the background (`&`). -/
structure ShellCmd where
  exe : String
  background : Bool
deriving DecidableEq

/-- The commands of the workflow's `run:` steps, split at `&&` and `;`,
which both sequence commands in the foreground. -/
def workflowShell : List (List ShellCmd) :=
  [ [ { exe := "az extension add -n ml -y", background := false } ],
    [ { exe := "bash setup.sh", background := false } ],
    [ { exe := "sudo apt-get upgrade -y", background := false },
      { exe := "sudo apt-get install uuid-runtime jq -y", background := false } ],
    [ { exe := "set -e", background := false },
      { exe := "bash -x create-compute.sh", background := false } ] ]

/-! ## Coherence of the two per-notebook embeddings -/

/-- The dataflow embedding of notebook A invokes the same SDK operations,
in the same order, as its statement embedding. -/
theorem callsA_ops_coherent : notebookACalls.map (fun c => c.op) = sdkOpsA := by
  decide

/-- The dataflow embedding of notebook B invokes the same SDK operations,
in the same order, as its statement embedding. -/
theorem callsB_ops_coherent : notebookBCalls.map (fun c => c.op) = sdkOpsB := by
  decide

/-! ## The claims -/

/-- C1, counterexample: neither notebook invokes the SDK operations in the
spec's claimed order. In notebook A the dataset upload and reference come
before the environment definition; in notebook B there is no dataset stage
at all and the TensorBoard launch comes before the final
`run.wait_for_completion` poll. -/
theorem sdk_call_order_counterexample :
    claimC1check sdkOpsA = false ∧ claimC1check sdkOpsB = false := by
  exact ⟨by decide, by decide⟩

/-- C1, amended: in both notebooks the workspace handle is built first, the
environment is defined before the run configuration, any dataset operations
come before the run configuration (though possibly before the environment),
the run configuration precedes the submit, the submit precedes the final
poll, and the visualization launch, when present, comes after the submit
(but may precede the final poll). -/
theorem sdk_call_order_amended :
    amendedC1check sdkOpsA = true ∧ amendedC1check sdkOpsB = true := by
  exact ⟨by decide, by decide⟩

/-- C2: the only step of the CI job carrying `continue-on-error: true` is
the setup step (`bash setup.sh`), and the job succeeds exactly when every
other step succeeds — so a failure of any step other than setup fails the
job, while a setup failure alone does not. -/
theorem ci_continue_on_error_only_setup :
    ((wfSteps.filter (fun s => s.continueOnError)).map
        (fun s => (s.name, s.run)) = [("setup", some "bash setup.sh")]) ∧
    ∀ (b0 b1 b2 b3 b4 b5 : Bool),
      runJob wfSteps [b0, b1, b2, b3, b4, b5] = (b0 && b1 && b2 && b4 && b5) := by
  refine ⟨by decide, ?_⟩
  intro b0 b1 b2 b3 b4 b5
  cases b0 <;> cases b1 <;> cases b2 <;> cases b3 <;> cases b4 <;> cases b5 <;> rfl

/-- C3, counterexample: the CI job does not consist of exactly four steps;
it has six. -/
theorem ci_steps_counterexample : wfSteps.length ≠ 4 := by decide

/-- C3, amended: the CI job consists of exactly six steps, in order:
check out the repo, log into Azure, install the `ml` CLI extension, run the
setup script, install apt packages, and run the create-compute test
script. -/
theorem ci_steps_amended :
    wfSteps.map (fun s => (s.name, s.usesAction, s.run)) =
      [("check out repo", some "actions/checkout@v2", none),
       ("azure login", some "azure/login@v1", none),
       ("install ml cli", none, some "az extension add -n ml -y"),
       ("setup", none, some "bash setup.sh"),
       ("scripts installs", none,
        some "sudo apt-get upgrade -y && sudo apt-get install uuid-runtime jq -y"),
       ("test script script", none, some "set -e; bash -x create-compute.sh")] := by
  rfl

/-- C4: the workflow triggers exactly when the cron schedule fires — at
minute 0 of every hour divisible by 4, i.e. every 4 hours — or a pull
request targets `main` or `cli-preview` and touches `cli/create-compute.sh`
or the workflow file itself; and the job's steps include the Azure login
and the run of the provisioning script. -/
theorem ci_trigger_characterization :
    (∀ (minute hour dom month dow : Nat),
        triggered (Event.scheduled minute hour dom month dow) = true ↔
          (minute = 0 ∧ hour % 4 = 0)) ∧
    (∀ (base : String) (changed : List String),
        triggered (Event.pullRequest base changed) = true ↔
          ((base = "main" ∨ base = "cli-preview") ∧
            ∃ f ∈ changed, f = "cli/create-compute.sh" ∨
              f = ".github/workflows/cli-scripts-create-compute.yml")) ∧
    (∃ s ∈ wfSteps, s.usesAction = some "azure/login@v1") ∧
    (∃ s ∈ wfSteps, s.run = some "set -e; bash -x create-compute.sh") := by
  refine ⟨?_, ?_, ?_, ?_⟩
  · intro minute hour dom month dow
    show (((((minute == 0) && (decide (0 ≤ hour) && ((hour - 0) % 4 == 0))) &&
        true) && true) && true) = true ↔ _
    simp [Nat.sub_zero, Nat.zero_le]
  · intro base changed
    show ((("main" == base) || (("cli-preview" == base) || false)) &&
        changed.any (fun f => (("cli/create-compute.sh" == f) ||
          ((".github/workflows/cli-scripts-create-compute.yml" == f) ||
            false)))) = true ↔ _
    simp only [Bool.or_false, Bool.and_eq_true, Bool.or_eq_true,
      beq_iff_eq, List.any_eq_true]
    constructor
    · rintro ⟨h1, f, hf, h2⟩
      exact ⟨h1.imp Eq.symm Eq.symm, f, hf, h2.imp Eq.symm Eq.symm⟩
    · rintro ⟨h1, f, hf, h2⟩
      exact ⟨h1.imp Eq.symm Eq.symm, f, hf, h2.imp Eq.symm Eq.symm⟩
  · exact ⟨{ name := "azure login", usesAction := some "azure/login@v1",
             run := none, workingDirectory := none, continueOnError := false },
           by decide, rfl⟩
  · exact ⟨{ name := "test script script", usesAction := none,
             run := some "set -e; bash -x create-compute.sh",
             workingDirectory := some "cli", continueOnError := false },
           by decide, rfl⟩

/-- C5, counterexample: notebook A does perform local create/delete
operations — it downloads the CIFAR10 archive and directory and deletes
both — so it is false that no notebook creates, mutates, or deletes a local
entity. -/
theorem no_local_side_effects_counterexample : localOpsA ≠ [] := by decide

/-- C5, amended: the TensorBoard notebook performs no local file
operations; the bring-your-own-data notebook does create and delete local
files, but every local path it creates it also deletes, so its net effect
on the local filesystem is only that the two downloaded CIFAR10 paths are
absent afterwards, with every other path unchanged (its one remaining local
mutation is the pip package upgrade); all cloud entities live in the
managed service. -/
theorem local_side_effects_amended :
    localOpsB = [] ∧
    ((localOpsA.map LocalOp.creates).flatten =
      (localOpsA.map LocalOp.deletes).flatten) ∧
    ∀ (fs : String → Bool) (p : String),
      applyAllFs localOpsA fs p =
        (if p = cifarArchivePath then false
         else if p = cifarDirPath then false
         else fs p) := by
  refine ⟨by decide, by decide, ?_⟩
  intro fs p
  show (LocalOp.removeDirTree cifarDirPath).applyFs
      ((LocalOp.removeFile cifarArchivePath).applyFs
        (LocalOp.cifarDownload.applyFs
          ((LocalOp.pipInstall "torchvision").applyFs fs))) p = _
  by_cases h1 : p = cifarArchivePath
  · subst h1; rfl
  · by_cases h2 : p = cifarDirPath
    · subst h2; rfl
    · simp [LocalOp.applyFs, h1, h2]

/-- C6: no code cell of either notebook contains branching or a try/except
handler, and for any split of a notebook's statements where a prefix
succeeds and the next statement raises an exception, execution stops at
that statement with the exception propagated unmodified — so no further
statement (in particular no further SDK call) runs. -/
theorem cells_no_branch_no_handler :
    straightLine notebookAStmts = true ∧ straightLine notebookBStmts = true ∧
    ∀ (nb : List Stmt), (nb = notebookAStmts ∨ nb = notebookBStmts) →
    ∀ (pre post : List (Stmt × Option String)) (s : Stmt) (e : String),
      nb = pre.map Prod.fst ++ s :: post.map Prod.fst →
      (∀ t ∈ pre, t.2 = none) →
      runSeq (pre ++ (s, some e) :: post) =
        (pre.map Prod.fst ++ [s], Except.error e) := by
  refine ⟨by decide, by decide, ?_⟩
  intro nb hnb pre post s e hsplit hpre
  have hsl : straightLine nb = true := by
    rcases hnb with h | h <;> subst h <;> decide
  have hmem : s ∈ nb := by
    rw [hsplit]
    exact List.mem_append_right _ (List.mem_cons_self _ _)
  have hs : s.catches = false := by
    rw [straightLine] at hsl
    have h1 := List.all_eq_true.mp hsl s hmem
    have h2 : (!s.catches) = true := (Bool.and_eq_true _ _ |>.mp h1).2
    simpa using h2
  rw [runSeq_append_ok pre ((s, some e) :: post) hpre, runSeq_raise s e post hs]

/-- C6 witness: in notebook B, if the very first SDK call
(`Workspace.from_config`) raises, execution stops there with the exception
propagated and no further statement executed. -/
theorem cells_no_branch_no_handler_witness :
    runSeq [(Stmt.sdkCall SDKOp.workspaceFromConfig, some "AuthenticationError"),
            (Stmt.assign, none),
            (Stmt.sdkCall SDKOp.envFromCondaSpec, none),
            (Stmt.assign, none),
            (Stmt.sdkCall SDKOp.scriptRunConfig, none),
            (Stmt.sdkCall SDKOp.experimentSubmit, none),
            (Stmt.sdkCall SDKOp.tensorboardCreate, none),
            (Stmt.sdkCall SDKOp.tensorboardStart, none),
            (Stmt.sdkCall SDKOp.tensorboardStop, none),
            (Stmt.sdkCall SDKOp.waitForCompletion, none)] =
      ([Stmt.sdkCall SDKOp.workspaceFromConfig],
        Except.error "AuthenticationError") := by
  have h := cells_no_branch_no_handler.2.2 notebookBStmts (Or.inr rfl)
    []
    [(Stmt.assign, none),
     (Stmt.sdkCall SDKOp.envFromCondaSpec, none),
     (Stmt.assign, none),
     (Stmt.sdkCall SDKOp.scriptRunConfig, none),
     (Stmt.sdkCall SDKOp.experimentSubmit, none),
     (Stmt.sdkCall SDKOp.tensorboardCreate, none),
     (Stmt.sdkCall SDKOp.tensorboardStart, none),
     (Stmt.sdkCall SDKOp.tensorboardStop, none),
     (Stmt.sdkCall SDKOp.waitForCompletion, none)]
    (Stmt.sdkCall SDKOp.workspaceFromConfig) "AuthenticationError"
    (by rfl) (by simp)
  simpa using h

/-- C7: in both notebooks every remote handle an SDK call consumes was
produced by an earlier SDK call of the same notebook: `ws` before
`get_default_datastore` and `Experiment`, `env` before `ScriptRunConfig`,
`src` before `submit`, `run` before `RunDetails`/`Tensorboard`/
`wait_for_completion`, and `tb` before `start`/`stop`. -/
theorem handles_produced_before_consumed :
    wellScoped notebookACalls = true ∧ wellScoped notebookBCalls = true := by
  exact ⟨by decide, by decide⟩

/-- C8: no statement of either notebook spawns a thread, process pool, or
async task; no shell command of the workflow's run steps is backgrounded;
and under the sequential semantics with no failures every statement of each
notebook executes, in order, to completion. -/
theorem scripts_single_threaded :
    notebookAStmts.all (fun s => !s.isSpawn) = true ∧
    notebookBStmts.all (fun s => !s.isSpawn) = true ∧
    workflowShell.all (fun cmds => cmds.all (fun c => !c.background)) = true ∧
    runSeq (notebookAStmts.map (fun s => (s, none))) =
      (notebookAStmts, Except.ok ()) ∧
    runSeq (notebookBStmts.map (fun s => (s, none))) =
      (notebookBStmts, Except.ok ()) := by
  exact ⟨by decide, by decide, by decide, by rfl, by rfl⟩

/-- C9: the upload target path of notebook A's data-upload cell is the
dataset reference path mounted for training followed by the CIFAR10
directory name — the mounted path is a parent of the upload target, so the
uploaded directory is reachable under the `--data-path` mount. -/
theorem upload_target_under_mount :
    uploadCall.targetPath = datasetReferencePath ++ uploadCall.srcDir ∧
    datasetReferencePath.toList.isPrefixOf uploadCall.targetPath.toList = true := by
  exact ⟨rfl, by decide⟩

/-- C10: the data-upload cell is idempotent at the datastore — since
`ds.upload` runs with `overwrite=True`, applying the upload twice to any
prior datastore contents leaves the same contents as applying it once. -/
theorem upload_idempotent :
    ∀ (files : List (String × String)) (store : String → Option String),
      applyUpload uploadCall files (applyUpload uploadCall files store) =
        applyUpload uploadCall files store := by
  intro files store
  funext p
  have hov : uploadCall.overwrite = true := rfl
  cases h : uploadedContent uploadCall files p with
  | some c => simp [applyUpload, h, hov]
  | none => simp [applyUpload, h]

end AzureMLExamples
